import Mathlib

/-!
Verification of the unified inference layer of the lumi-ui backend
(`apps/server/services/inference/*` plus the `/api/ai/chat` handler in
`apps/server/main.py`).

The Python source is shallowly embedded:

* pydantic models become Lean structures with the same field names;
* Python dicts become insertion-ordered association lists;
* Python exceptions become an explicit `PyErr` error type threaded with
  `Except`;
* attribute access on a pydantic model is a total function over the model's
  declared field names, returning `PyErr.attributeError` for any other name
  (pydantic v2 models reject unknown attributes), which is how the source's
  accesses to undeclared fields (`enabled`, `token_usage`, `_shims`) behave;
* provider adapters' network calls are abstracted into provider stubs that
  record whether a call was dispatched.
-/

/-- A Python scalar-ish value as it appears in the parameter dictionaries of
the inference layer (`None`, ints, strings, bools, lists of strings, and the
dumped token-usage dict).  Floats are represented by `vInt`-style numerals
only through truthiness, which is all the mapped code inspects. -/
inductive PVal where
  | vNone : PVal
  | vInt (n : Int) : PVal
  | vStr (s : String) : PVal
  | vBool (b : Bool) : PVal
  | vStrList (xs : List String) : PVal
  | vIntMap (m : List (String × Int)) : PVal
  deriving DecidableEq, Repr

/-- Python truthiness for the values above (`None`, `0`, `""`, `False`,
`[]`, `{}` are falsy). -/
def PVal.truthy : PVal → Bool
  | .vNone => false
  | .vInt n => n != 0
  | .vStr s => s != ""
  | .vBool b => b
  | .vStrList xs => !xs.isEmpty
  | .vIntMap m => !m.isEmpty

/-- An insertion-ordered Python dict with string keys. -/
def PDict := List (String × PVal)
  deriving DecidableEq, Repr

/-- `d[k]` lookup returning the first (and, under `pinsert`, only) binding. -/
def pget : PDict → String → Option PVal
  | [], _ => none
  | (k, v) :: rest, key => if k = key then some v else pget rest key

/-- `d.get(k)`: missing keys read as `None`. -/
def pgetD (d : PDict) (key : String) : PVal :=
  (pget d key).getD .vNone

/-- `d.get(k, default)`. -/
def pgetDef (d : PDict) (key : String) (dflt : PVal) : PVal :=
  (pget d key).getD dflt

/-- `d[k] = v`: replace the binding in place if the key exists (Python keeps
the original position), otherwise append. -/
def pinsert : PDict → String → PVal → PDict
  | [], key, v => [(key, v)]
  | (k, w) :: rest, key, v =>
    if k = key then (k, v) :: rest else (k, w) :: pinsert rest key v

/-- Python exceptions raised by the embedded code. -/
inductive PyErr where
  | attributeError (cls attr : String) : PyErr
  | valueError (msg : String) : PyErr
  | keyError (key : String) : PyErr
  | indexError : PyErr
  deriving DecidableEq, Repr

instance exceptDecEq {ε α : Type} [DecidableEq ε] [DecidableEq α] :
    DecidableEq (Except ε α) := fun x y =>
  match x, y with
  | .ok a, .ok b =>
    if h : a = b then .isTrue (by rw [h])
    else .isFalse (by intro hc; cases hc; exact h rfl)
  | .error e, .error f =>
    if h : e = f then .isTrue (by rw [h])
    else .isFalse (by intro hc; cases hc; exact h rfl)
  | .ok _, .error _ => .isFalse (by intro hc; cases hc)
  | .error _, .ok _ => .isFalse (by intro hc; cases hc)

/-- `"/" in s` (computed on the character list so that proofs can evaluate
it). -/
def pyContainsSlash (s : String) : Bool :=
  s.data.any (fun c => c = '/')

/-- Split a character list at the first `/`. -/
def splitCharsOnSlash : List Char → Option (List Char × List Char)
  | [] => none
  | c :: rest =>
    if c = '/' then some ([], rest)
    else
      match splitCharsOnSlash rest with
      | some (l, r) => some (c :: l, r)
      | none => none

/-- `s.split("/", 1)`: the parts before and after the first slash (`none`
when there is no slash; Python would return the one-element list). -/
def pySplitSlashOnce (s : String) : Option (String × String) :=
  match splitCharsOnSlash s.data with
  | some (l, r) => some (String.mk l, String.mk r)
  | none => none

/-- `s.split("/")[0]`: the prefix before the first slash (the whole string
when there is no slash). -/
def pyHeadSplitSlash (s : String) : String :=
  String.mk (s.data.takeWhile (fun c => c ≠ '/'))

/-- `str(e)` rendering used by the HTTP handler when it stringifies a caught
exception (quotes of the Python message are elided). -/
def PyErr.render : PyErr → String
  | .attributeError cls attr => cls ++ " object has no attribute " ++ attr
  | .valueError msg => msg
  | .keyError key => key
  | .indexError => "list index out of range"

/-! ## `services/inference/models.py`: enums and pydantic models -/

/-- `AttachmentType` (`models.py`). -/
inductive AttachmentType where
  | IMAGE | TEXT | PDF | AUDIO | VIDEO | DOCUMENT | UNKNOWN
  deriving DecidableEq, Repr

/-- `RequestType` (`models.py`). -/
inductive RequestType where
  | TEXT_GENERATION | VISION_ANALYSIS | IMAGE_GENERATION | IMAGE_EDIT
  | DOCUMENT_ANALYSIS
  deriving DecidableEq, Repr

/-- `MessageRole` (`models.py`). -/
inductive MessageRole where
  | SYSTEM | USER | ASSISTANT
  deriving DecidableEq, Repr

/-- `Message` (`models.py`). -/
structure Message where
  role : MessageRole
  content : String
  deriving DecidableEq, Repr

/-- `Attachment` (`models.py`); `content` is the raw byte string. -/
structure Attachment where
  content : List Nat
  mime_type : String
  filename : Option String := none
  attachment_type : AttachmentType
  metadata : PDict := []
  deriving DecidableEq, Repr

/-- `Attachment._detect_type` (`models.py`): pure function of the MIME-type
prefix. -/
def Attachment.detect_type (mime_type : String) : AttachmentType :=
  if mime_type.startsWith "image/" then .IMAGE
  else if mime_type.startsWith "text/" then .TEXT
  else if mime_type = "application/pdf" then .PDF
  else if mime_type.startsWith "audio/" then AttachmentType.AUDIO
  else if mime_type.startsWith "video/" then .VIDEO
  else .UNKNOWN

/-- `TokenUsage` (`models.py`). -/
structure TokenUsage where
  prompt_tokens : Int := 0
  completion_tokens : Int := 0
  total_tokens : Int := 0
  deriving DecidableEq, Repr

/-- `TokenUsage.model_dump()`. -/
def TokenUsage.model_dump (u : TokenUsage) : List (String × Int) :=
  [("prompt_tokens", u.prompt_tokens),
   ("completion_tokens", u.completion_tokens),
   ("total_tokens", u.total_tokens)]

/-- `UnifiedRequest` (`models.py`), prior to running its model validator. -/
structure UnifiedRequest where
  prompt : Option String := none
  system_message : Option String := none
  messages : Option (List Message) := none
  attachments : List Attachment := []
  temperature : Option Rat := none
  max_tokens : Option Int := none
  top_p : Option Rat := none
  frequency_penalty : Option Rat := none
  presence_penalty : Option Rat := none
  stop_sequences : Option (List String) := none
  reasoning_effort : Option String := none
  response_format : String := "text"
  stream : Bool := false
  model : String := "auto"
  extras : PDict := []
  deriving DecidableEq, Repr

/-- `UnifiedRequest.validate_prompt_or_messages` (`models.py`): the
pydantic after-validator run at construction.  `.ok` is a successful
construction, `.error` a pydantic `ValueError`. -/
def UnifiedRequest.validate_prompt_or_messages (r : UnifiedRequest) :
    Except PyErr UnifiedRequest :=
  let has_prompt := r.prompt.isSome
  let has_messages := r.messages.isSome && !(r.messages.getD []).isEmpty
  if !has_prompt && !has_messages then
    .error (.valueError "Either prompt or messages must be provided")
  else if has_prompt && has_messages then
    .error (.valueError "Cannot provide both prompt and messages. Use one or the other.")
  else
    .ok r

/-- `UnifiedRequest.is_multi_turn` (`models.py`). -/
def UnifiedRequest.is_multi_turn (r : UnifiedRequest) : Bool :=
  r.messages.isSome && !(r.messages.getD []).isEmpty

/-- `UnifiedResponse` (`models.py`).  Its pydantic fields are `content`,
`images`, `model_used`, `provider`, `usage`, `finish_reason`,
`attachments_processed`, `metadata` — there is no `token_usage` field. -/
structure UnifiedResponse where
  content : Option String := none
  images : List String := []
  model_used : String
  provider : String
  usage : TokenUsage
  finish_reason : String
  attachments_processed : List PDict := []
  metadata : PDict := []
  deriving DecidableEq, Repr

/-- `ParameterMapping` (`models.py`).  `max_tokens_param` is typed `str`
(not optional) in the source; the optional parameters use `None` for
"unsupported". -/
structure ParameterMapping where
  max_tokens_param : String := "max_tokens"
  temperature_param : Option String := some "temperature"
  top_p_param : Option String := some "top_p"
  custom_params : PDict := []
  deriving DecidableEq, Repr

/-- `ModelCapabilities` (`models.py`). -/
structure ModelCapabilities where
  text_generation : Bool := true
  vision : Bool := false
  image_generation : Bool := false
  image_editing : Bool := false
  function_calling : Bool := false
  streaming : Bool := false
  json_mode : Bool := false
  reasoning : Bool := false
  max_context_length : Option Int := none
  deriving DecidableEq, Repr

/-- `ModelConfig` (`models.py`); `supported_parameters: Set[str]` is carried
as the list of its members (only membership is ever queried). -/
structure ModelConfig where
  name : String
  display_name : String
  provider : String
  capabilities : ModelCapabilities
  parameter_mapping : ParameterMapping
  supported_parameters : List String
  cost_per_1k_tokens : Option Rat := none
  context_window : Option Int := none
  deriving DecidableEq, Repr

/-- `ProviderConfig` (`models.py`).  Note: there is no `enabled` field; the
repository's own `test_enabled_flag_removal.py` asserts
`not hasattr(config, 'enabled')`. -/
structure ProviderConfig where
  api_key : String
  base_url : Option String := none
  models : List (String × ModelConfig) := []
  default_model : String
  rate_limits : List (String × Int) := []
  custom_headers : List (String × String) := []
  deriving DecidableEq, Repr

/-- `InferenceConfig` (`models.py`); `providers` is an insertion-ordered
dict. -/
structure InferenceConfig where
  providers : List (String × ProviderConfig) := []
  default_provider : String := "auto"
  fallback_providers : List String := []
  provider_selection_strategy : String := "cost_optimized"
  deriving DecidableEq, Repr

/-- Ordered-dict lookup for the string-keyed association lists above. -/
def alookup {α : Type} : List (String × α) → String → Option α
  | [], _ => none
  | (k, v) :: rest, key => if k = key then some v else alookup rest key

/-- `key in d` for the association lists above. -/
def akeys {α : Type} (d : List (String × α)) : List String :=
  d.map Prod.fst

/-! ## `services/inference/base.py`: request classification and capability
validation -/

/-- `Provider.determine_request_type` (`base.py`): pure function of the
request's attachments and response format (the model config argument is
unused in the source body). -/
def Provider.determine_request_type (request : UnifiedRequest)
    (_model_config : ModelConfig) : RequestType :=
  let has_images := request.attachments.any
    (fun att => att.attachment_type == AttachmentType.IMAGE)
  let has_documents := request.attachments.any
    (fun att => att.attachment_type == AttachmentType.PDF
      || att.attachment_type == AttachmentType.TEXT
      || att.attachment_type == AttachmentType.DOCUMENT)
  if request.response_format = "image" then
    if has_images then .IMAGE_EDIT else .IMAGE_GENERATION
  else if has_images then .VISION_ANALYSIS
  else if has_documents then .DOCUMENT_ANALYSIS
  else .TEXT_GENERATION

/-- `UnifiedInferenceService._analyze_request` (`service.py`): same body as
`Provider.determine_request_type`, without the model argument. -/
def UnifiedInferenceService.analyze_request (request : UnifiedRequest) :
    RequestType :=
  let has_images := request.attachments.any
    (fun att => att.attachment_type == AttachmentType.IMAGE)
  let has_documents := request.attachments.any
    (fun att => att.attachment_type == AttachmentType.PDF
      || att.attachment_type == AttachmentType.TEXT
      || att.attachment_type == AttachmentType.DOCUMENT)
  if request.response_format = "image" then
    if has_images then .IMAGE_EDIT else .IMAGE_GENERATION
  else if has_images then .VISION_ANALYSIS
  else if has_documents then .DOCUMENT_ANALYSIS
  else .TEXT_GENERATION

/-- The classification rules exactly as the spec lists them (spec section
4.2), written independently of the source for the refinement comparison:
ordered rules over the attachment types and the response format. -/
def specRequestType (attachments : List Attachment)
    (response_format : String) : RequestType :=
  let hasImageAtt := attachments.any (fun a => a.attachment_type = .IMAGE)
  let hasDocAtt := attachments.any (fun a =>
    a.attachment_type = .PDF ∨ a.attachment_type = .TEXT
      ∨ a.attachment_type = .DOCUMENT)
  if response_format = "image" ∧ hasImageAtt then .IMAGE_EDIT
  else if response_format = "image" ∧ ¬ hasImageAtt then .IMAGE_GENERATION
  else if hasImageAtt then .VISION_ANALYSIS
  else if hasDocAtt then .DOCUMENT_ANALYSIS
  else .TEXT_GENERATION

/-- `Provider.validate_request` (`base.py`): capability validation.
Returns `false` exactly on the rejecting branches of the source. -/
def Provider.validate_request (request : UnifiedRequest)
    (model_config : ModelConfig) : Bool :=
  let request_type := Provider.determine_request_type request model_config
  if request_type = .VISION_ANALYSIS && !model_config.capabilities.vision then
    false
  else if request_type = .IMAGE_GENERATION
      && !model_config.capabilities.image_generation then
    false
  else if request_type = .IMAGE_EDIT then
    if !model_config.capabilities.image_generation then false
    else if !model_config.capabilities.image_editing then false
    else true
  else true

/-! ## Provider adapters: `map_parameters`
(`providers/openai.py`, `providers/google.py`) -/

/-- Python truthiness of an `Optional[str]` mapping entry. -/
def optStrTruthy : Option String → Bool
  | none => false
  | some s => s != ""

/-- `OpenAIProvider.map_parameters` (`providers/openai.py` lines 428-467).
Each `if` mirrors one statement of the source; dict writes use `pinsert`. -/
def OpenAIProvider.map_parameters (unified_params : PDict)
    (model_config : ModelConfig) : PDict :=
  let mapping := model_config.parameter_mapping
  let mapped : PDict := []
  let mapped :=
    if (pgetD unified_params "max_tokens").truthy
        && mapping.max_tokens_param != "" then
      pinsert mapped mapping.max_tokens_param (pgetD unified_params "max_tokens")
    else mapped
  let mapped :=
    if (pgetD unified_params "temperature").truthy
        && optStrTruthy mapping.temperature_param then
      pinsert mapped (mapping.temperature_param.getD "")
        (pgetD unified_params "temperature")
    else mapped
  let mapped :=
    if (pgetD unified_params "top_p").truthy
        && optStrTruthy mapping.top_p_param then
      pinsert mapped (mapping.top_p_param.getD "") (pgetD unified_params "top_p")
    else mapped
  let mapped :=
    if model_config.supported_parameters.contains "frequency_penalty" then
      pinsert mapped "frequency_penalty" (pgetD unified_params "frequency_penalty")
    else mapped
  let mapped :=
    if model_config.supported_parameters.contains "presence_penalty" then
      pinsert mapped "presence_penalty" (pgetD unified_params "presence_penalty")
    else mapped
  let mapped :=
    if model_config.supported_parameters.contains "stop" then
      pinsert mapped "stop" (pgetD unified_params "stop_sequences")
    else mapped
  let mapped :=
    if model_config.supported_parameters.contains "stream" then
      pinsert mapped "stream" (pgetDef unified_params "stream" (.vBool false))
    else mapped
  let mapped :=
    if model_config.capabilities.reasoning then
      let reasoning_effort := pgetD unified_params "reasoning_effort"
      if reasoning_effort.truthy
          && model_config.supported_parameters.contains "reasoning_effort" then
        pinsert mapped "reasoning_effort" reasoning_effort
      else if (pgetD mapping.custom_params "reasoning_effort").truthy then
        pinsert mapped "reasoning_effort" (pgetD mapping.custom_params "reasoning_effort")
      else mapped
    else mapped
  mapped

/-- `GoogleProvider.map_parameters` (`providers/google.py` lines 554-580).
The penalty/reasoning branches of the source only log warnings and write
nothing. -/
def GoogleProvider.map_parameters (unified_params : PDict)
    (model_config : ModelConfig) : PDict :=
  let mapping := model_config.parameter_mapping
  let mapped : PDict := []
  let mapped :=
    if (pgetD unified_params "max_tokens").truthy
        && mapping.max_tokens_param != "" then
      pinsert mapped mapping.max_tokens_param (pgetD unified_params "max_tokens")
    else mapped
  let mapped :=
    if (pgetD unified_params "temperature").truthy
        && optStrTruthy mapping.temperature_param then
      pinsert mapped (mapping.temperature_param.getD "")
        (pgetD unified_params "temperature")
    else mapped
  let mapped :=
    if (pgetD unified_params "top_p").truthy
        && optStrTruthy mapping.top_p_param then
      pinsert mapped (mapping.top_p_param.getD "") (pgetD unified_params "top_p")
    else mapped
  let mapped :=
    if model_config.supported_parameters.contains "stop_sequences" then
      pinsert mapped "stop_sequences" (pgetD unified_params "stop_sequences")
    else mapped
  mapped

/-! ## `service.py`: provider configuration access and model auto-selection -/

/-- One declared field value of a `ProviderConfig` pydantic instance. -/
inductive ProviderConfigField where
  | fStr (s : String)
  | fOptStr (o : Option String)
  | fModels (m : List (String × ModelConfig))
  | fIntMap (m : List (String × Int))
  | fStrMap (m : List (String × String))

/-- Python truthiness of a `ProviderConfigField` value. -/
def ProviderConfigField.truthy : ProviderConfigField → Bool
  | .fStr s => s != ""
  | .fOptStr o => optStrTruthy o
  | .fModels m => !m.isEmpty
  | .fIntMap m => !m.isEmpty
  | .fStrMap m => !m.isEmpty

/-- Attribute access on a `ProviderConfig` instance.  The declared pydantic
fields (`models.py` lines 236-243) are `api_key`, `base_url`, `models`,
`default_model`, `rate_limits`, `custom_headers`; any other attribute —
in particular `enabled` — raises `AttributeError`. -/
def ProviderConfig.pyGetattr (pc : ProviderConfig) :
    String → Except PyErr ProviderConfigField
  | "api_key" => .ok (.fStr pc.api_key)
  | "base_url" => .ok (.fOptStr pc.base_url)
  | "models" => .ok (.fModels pc.models)
  | "default_model" => .ok (.fStr pc.default_model)
  | "rate_limits" => .ok (.fIntMap pc.rate_limits)
  | "custom_headers" => .ok (.fStrMap pc.custom_headers)
  | attr => .error (.attributeError "ProviderConfig" attr)

/-- The candidate-collection loop shared verbatim by
`_get_best_vision_model`, `_get_best_image_gen_model` and
`_get_best_text_model` (`service.py` lines 145-201): iterate providers in
config insertion order, skip a provider when `provider_config.enabled` is
falsy (an attribute read that raises), and collect the models whose
capability flag holds, in model insertion order. -/
def UnifiedInferenceService.collect_candidates
    (cap : ModelConfig → Bool) :
    List (String × ProviderConfig) → Except PyErr (List ModelConfig)
  | [] => .ok []
  | (_, provider_config) :: rest =>
    match provider_config.pyGetattr "enabled" with
    | .error e => .error e
    | .ok en =>
      if !en.truthy then
        UnifiedInferenceService.collect_candidates cap rest
      else
        match UnifiedInferenceService.collect_candidates cap rest with
        | .error e => .error e
        | .ok tailCandidates =>
          .ok (((provider_config.models.filter (fun m => cap m.2)).map Prod.snd)
            ++ tailCandidates)

/-- `UnifiedInferenceService._get_best_text_model` (`service.py` lines
185-201). -/
def UnifiedInferenceService.get_best_text_model (config : InferenceConfig) :
    Except PyErr ModelConfig :=
  match UnifiedInferenceService.collect_candidates
      (fun m => m.capabilities.text_generation) config.providers with
  | .error e => .error e
  | .ok [] => .error (.valueError "No text generation models available")
  | .ok (c :: _) => .ok c

/-- `UnifiedInferenceService._get_best_vision_model` (`service.py` lines
145-161). -/
def UnifiedInferenceService.get_best_vision_model (config : InferenceConfig) :
    Except PyErr ModelConfig :=
  match UnifiedInferenceService.collect_candidates
      (fun m => m.capabilities.vision) config.providers with
  | .error e => .error e
  | .ok [] => .error (.valueError "No vision models available")
  | .ok (c :: _) => .ok c

/-- `UnifiedInferenceService._get_best_image_gen_model` (`service.py` lines
163-178). -/
def UnifiedInferenceService.get_best_image_gen_model
    (config : InferenceConfig) : Except PyErr ModelConfig :=
  match UnifiedInferenceService.collect_candidates
      (fun m => m.capabilities.image_generation) config.providers with
  | .error e => .error e
  | .ok [] => .error (.valueError "No image generation models available")
  | .ok (c :: _) => .ok c

/-- `UnifiedInferenceService._get_best_image_edit_model` (`service.py` lines
180-183): falls back to image generation. -/
def UnifiedInferenceService.get_best_image_edit_model
    (config : InferenceConfig) : Except PyErr ModelConfig :=
  UnifiedInferenceService.get_best_image_gen_model config

/-- The provider-registration loop of `UnifiedInferenceService.__init__`
(`service.py` lines 39-52, named `_initialize_providers` in the source): for
each configured provider it reads `provider_config.enabled` — an attribute
that does not exist — and, when truthy, registers the provider instance (a
side effect on the registry that returns nothing). -/
def UnifiedInferenceService.init_providers_loop :
    List (String × ProviderConfig) → Except PyErr Unit
  | [] => .ok ()
  | (_, provider_config) :: rest =>
    match provider_config.pyGetattr "enabled" with
    | .error e => .error e
    | .ok _ =>
      -- the body only instantiates the provider and logs
      UnifiedInferenceService.init_providers_loop rest

/-- `UnifiedInferenceService._initialize_providers`, modulo the registration
side effects (see `init_providers_loop`). -/
def UnifiedInferenceService.init_providers (config : InferenceConfig) :
    Except PyErr Unit :=
  UnifiedInferenceService.init_providers_loop config.providers

/-! ## `service.py`: the request pipeline over abstract provider adapters

A provider instance is abstracted as a stub: a fixed supported-model table
(`get_supported_models`) and a function giving the outcome of its
`process_request` network dispatch.  The pipeline returns, next to the
Python result, the list of providers whose `process_request` was invoked,
so that "no network call was made" is expressible. -/

structure ProviderStub where
  provider_name : String
  supported_models : List (String × ModelConfig)
  result : String → UnifiedRequest → Except PyErr UnifiedResponse

/-- `UnifiedInferenceService._model_supports_request_type` (`service.py`
lines 232-243). -/
def UnifiedInferenceService.model_supports_request_type
    (model_config : ModelConfig) (request_type : RequestType) : Bool :=
  match request_type with
  | .VISION_ANALYSIS => model_config.capabilities.vision
  | .IMAGE_GENERATION => model_config.capabilities.image_generation
  | .IMAGE_EDIT => model_config.capabilities.image_editing
  | .TEXT_GENERATION => model_config.capabilities.text_generation
  | _ => false

/-- `UnifiedInferenceService._select_model_for_provider` (`service.py` lines
220-230).  `config.providers.get(name)` misses (giving `None`, hence
`return None`) or hits, in which case `provider_config.enabled` is read —
an attribute access that raises `AttributeError`. -/
def UnifiedInferenceService.select_model_for_provider
    (config : InferenceConfig) (request_type : RequestType)
    (provider_name : String) : Except PyErr (Option ModelConfig) :=
  match alookup config.providers provider_name with
  | none => .ok none
  | some provider_config =>
    match provider_config.pyGetattr "enabled" with
    | .error e => .error e
    | .ok en =>
      if !en.truthy then .ok none
      else
        .ok ((provider_config.models.find? (fun m =>
          UnifiedInferenceService.model_supports_request_type m.2 request_type)).map
            Prod.snd)

/-- The `for provider_name in self.config.fallback_providers` loop of
`UnifiedInferenceService._try_fallback_providers` (`service.py` lines
203-218).  Each iteration's body is wrapped in `try/except: continue`, so
any exception inside it (including the `AttributeError` from
`_select_model_for_provider`) moves on to the next fallback; when the list
is exhausted the original error is re-raised.  The second component lists
the fallback providers whose `process_request` was actually invoked. -/
def UnifiedInferenceService.try_fallback_loop (config : InferenceConfig)
    (get_provider : String → Option ProviderStub) (request : UnifiedRequest)
    (request_type : RequestType) (original_error : PyErr) :
    List String → Except PyErr UnifiedResponse × List String
  | [] => (.error original_error, [])
  | provider_name :: rest =>
    match UnifiedInferenceService.select_model_for_provider config
        request_type provider_name with
    | .error _ =>  -- exception caught by the except: continue
      UnifiedInferenceService.try_fallback_loop config get_provider request
        request_type original_error rest
    | .ok none =>  -- `if model_config:` is false
      UnifiedInferenceService.try_fallback_loop config get_provider request
        request_type original_error rest
    | .ok (some model_config) =>
      match get_provider provider_name with
      | none =>  -- `if provider and ...` is false
        UnifiedInferenceService.try_fallback_loop config get_provider request
          request_type original_error rest
      | some provider =>
        if Provider.validate_request request model_config then
          match provider.result model_config.name request with
          | .ok resp => (.ok resp, [provider_name])
          | .error _ =>  -- exception caught by the except: continue
            let next := UnifiedInferenceService.try_fallback_loop config
              get_provider request request_type original_error rest
            (next.1, provider_name :: next.2)
        else
          UnifiedInferenceService.try_fallback_loop config get_provider request
            request_type original_error rest

/-- `UnifiedInferenceService._try_fallback_providers` (`service.py` lines
203-218). -/
def UnifiedInferenceService.try_fallback_providers (config : InferenceConfig)
    (get_provider : String → Option ProviderStub) (request : UnifiedRequest)
    (request_type : RequestType) (original_error : PyErr) :
    Except PyErr UnifiedResponse × List String :=
  UnifiedInferenceService.try_fallback_loop config get_provider request
    request_type original_error config.fallback_providers

/-- The legacy lookup loop of `_select_model` (`service.py` lines 126-133):
a model name without a slash is searched across every configured provider's
supported models. -/
def UnifiedInferenceService.legacy_model_lookup
    (get_provider : String → Option ProviderStub) (model : String) :
    List (String × ProviderConfig) → Except PyErr ModelConfig
  | [] => .error (.valueError ("Model " ++ model ++ " not found"))
  | (provider_name, _) :: rest =>
    match get_provider provider_name with
    | none =>
      UnifiedInferenceService.legacy_model_lookup get_provider model rest
    | some provider =>
      match alookup provider.supported_models model with
      | some model_config => .ok model_config
      | none =>
        UnifiedInferenceService.legacy_model_lookup get_provider model rest

/-- `UnifiedInferenceService._select_model` (`service.py` lines 105-143):
explicit `provider/model` resolution (split on the first slash), legacy
whole-name lookup, or capability-based auto-selection. -/
def UnifiedInferenceService.select_model (config : InferenceConfig)
    (get_provider : String → Option ProviderStub) (request : UnifiedRequest)
    (request_type : RequestType) : Except PyErr ModelConfig :=
  if request.model != "auto" then
    if pyContainsSlash request.model then
      match pySplitSlashOnce request.model with
      | some (provider_name, model_name) =>
        if (akeys config.providers).contains provider_name then
          match get_provider provider_name with
          | some provider =>
            match alookup provider.supported_models model_name with
            | some model_config => .ok model_config
            | none =>
              .error (.valueError ("Model " ++ model_name
                ++ " not found in provider " ++ provider_name))
          | none =>
            .error (.valueError ("Provider " ++ provider_name
              ++ " not available"))
        else
          .error (.valueError ("Provider " ++ provider_name ++ " not found"))
      | none => .error (.valueError "unreachable: the slash was just tested")
    else
      UnifiedInferenceService.legacy_model_lookup get_provider request.model
        config.providers
  else
    match request_type with
    | .VISION_ANALYSIS => UnifiedInferenceService.get_best_vision_model config
    | .IMAGE_GENERATION =>
      UnifiedInferenceService.get_best_image_gen_model config
    | .IMAGE_EDIT => UnifiedInferenceService.get_best_image_edit_model config
    | _ => UnifiedInferenceService.get_best_text_model config

/-- `UnifiedInferenceService.process_request` (`service.py` lines 54-85).
Returns the Python outcome together with the list of providers whose
`process_request` (the network dispatch) was invoked.  Note the `try` block
of the source encloses only step 5: a validation failure at step 4 raises
without ever consulting the fallback providers. -/
def UnifiedInferenceService.process_request (config : InferenceConfig)
    (get_provider : String → Option ProviderStub) (request : UnifiedRequest) :
    Except PyErr UnifiedResponse × List String :=
  let request_type := UnifiedInferenceService.analyze_request request
  match UnifiedInferenceService.select_model config get_provider request
      request_type with
  | .error e => (.error e, [])
  | .ok model_config =>
    match get_provider model_config.provider with
    | none =>
      (.error (.valueError ("Provider " ++ model_config.provider
        ++ " not available")), [])
    | some provider =>
      if !(Provider.validate_request request model_config) then
        (.error (.valueError ("Request not compatible with model "
          ++ model_config.name)), [])
      else
        match provider.result model_config.name request with
        | .ok resp => (.ok resp, [model_config.provider])
        | .error e =>
          if !config.fallback_providers.isEmpty then
            let fb := UnifiedInferenceService.try_fallback_providers config
              get_provider request request_type e
            (fb.1, model_config.provider :: fb.2)
          else (.error e, [model_config.provider])

/-! ## `main.py`: the `/api/ai/chat` handler -/

/-- One declared field value of a `UnifiedResponse` pydantic instance. -/
inductive UnifiedResponseField where
  | fOptStr (o : Option String)
  | fStrList (xs : List String)
  | fStr (s : String)
  | fUsage (u : TokenUsage)
  | fDictList (ds : List PDict)
  | fDict (d : PDict)

/-- Attribute access on a `UnifiedResponse` instance.  The declared pydantic
fields (`models.py` lines 188-199) are listed below; any other attribute —
in particular `token_usage` — raises `AttributeError`. -/
def UnifiedResponse.pyGetattr (r : UnifiedResponse) :
    String → Except PyErr UnifiedResponseField
  | "content" => .ok (.fOptStr r.content)
  | "images" => .ok (.fStrList r.images)
  | "model_used" => .ok (.fStr r.model_used)
  | "provider" => .ok (.fStr r.provider)
  | "usage" => .ok (.fUsage r.usage)
  | "finish_reason" => .ok (.fStr r.finish_reason)
  | "attachments_processed" => .ok (.fDictList r.attachments_processed)
  | "metadata" => .ok (.fDict r.metadata)
  | attr => .error (.attributeError "UnifiedResponse" attr)

/-- `RegistryResponse` (`api/models.py`). -/
structure RegistryResponse where
  content : String
  model_used : String
  provider : String
  success : Bool
  error : Option String := none
  metadata : Option PDict := none
  deriving DecidableEq, Repr

/-- The metadata value the success branch would build from the field read as
`response.token_usage` (dead code: that read raises first). -/
def tokenUsageMetaVal : UnifiedResponseField → PVal
  | .fUsage u => .vIntMap u.model_dump
  | _ => .vNone

/-- `chat_completion` (`main.py` lines 104-141), parameterised by whether
the module-level `inference_service` is set and by the outcome of
`inference_service.process_registry_request(config)` (an awaited call).
The success branch evaluates `response.token_usage` while building its
`metadata` dict; the `except Exception` clause turns any raise into a
`success=False` body carrying `str(e)`. -/
def chat_completion (service_present : Bool) (request_model : String)
    (registry_result : Except PyErr UnifiedResponse) : RegistryResponse :=
  if !service_present then
    { content := "", model_used := "", provider := "", success := false,
      error := some "AI inference service not available", metadata := none }
  else
    match registry_result with
    | .error e =>
      { content := "", model_used := request_model,
        provider := if pyContainsSlash request_model then
            pyHeadSplitSlash request_model
          else "",
        success := false, error := some e.render, metadata := none }
    | .ok response =>
      match response.pyGetattr "token_usage" with
      | .error e =>  -- caught by the handler's except Exception
        { content := "", model_used := request_model,
          provider := if pyContainsSlash request_model then
              pyHeadSplitSlash request_model
            else "",
          success := false, error := some e.render, metadata := none }
      | .ok tu =>
        { content := response.content.getD "",
          model_used := request_model,
          provider := pyHeadSplitSlash request_model,
          success := true, error := none,
          metadata := some [("token_usage", tokenUsageMetaVal tu),
            ("finish_reason", .vStr response.finish_reason)] }

/-! ## `registry.py`: `ProviderRegistry` -/

/-- A registered provider class, abstracted to what the registry consults:
its `get_provider_name` and `get_supported_models` class methods. -/
structure ProviderClass where
  provider_name : String
  supported_models : List (String × ModelConfig)
  deriving DecidableEq, Repr

/-- `ProviderRegistry` (`registry.py` lines 260-266): `__init__` sets
exactly the attributes `_providers` and `_instances`. -/
structure ProviderRegistry where
  _providers : List (String × ProviderClass) := []
  _instances : List (String × ProviderClass) := []
  deriving DecidableEq, Repr

/-- One attribute value of a `ProviderRegistry` instance. -/
inductive ProviderRegistryField where
  | fProviders (ps : List (String × ProviderClass))
  | fInstances (ps : List (String × ProviderClass))

/-- Attribute access on a `ProviderRegistry` instance: only `_providers`
and `_instances` exist; `_shims` and `get_shim` raise `AttributeError`. -/
def ProviderRegistry.pyGetattr (reg : ProviderRegistry) :
    String → Except PyErr ProviderRegistryField
  | "_providers" => .ok (.fProviders reg._providers)
  | "_instances" => .ok (.fInstances reg._instances)
  | attr => .error (.attributeError "ProviderRegistry" attr)

/-- Keys of the dict held by a registry attribute. -/
def ProviderRegistryField.keys : ProviderRegistryField → List String
  | .fProviders ps => akeys ps
  | .fInstances ps => akeys ps

/-- `ProviderRegistry.is_provider_available` (`registry.py` lines 373-386):
`if name not in self._shims: return False` reads the undefined attribute
`_shims`; the continuation (`self.get_shim(name)`) would read the likewise
undefined `get_shim`. -/
def ProviderRegistry.is_provider_available (reg : ProviderRegistry)
    (name : String) : Except PyErr Bool :=
  match reg.pyGetattr "_shims" with
  | .error e => .error e
  | .ok shims =>
    if !(shims.keys.contains name) then .ok false
    else
      match reg.pyGetattr "get_shim" with
      | .error e => .error e
      | .ok _ => .ok false  -- unreachable: get_shim is not an attribute

/-- `ProviderRegistry.get_available_providers` (`registry.py` lines
326-332). -/
def ProviderRegistry.get_available_providers (reg : ProviderRegistry) :
    List String :=
  akeys reg._providers

/-- The loop of `UnifiedInferenceService.get_provider_status` (`service.py`
lines 349-358): one `is_provider_available` call per registered provider. -/
def UnifiedInferenceService.provider_status_loop (reg : ProviderRegistry) :
    List String → Except PyErr (List (String × Bool))
  | [] => .ok []
  | name :: rest =>
    match reg.is_provider_available name with
    | .error e => .error e
    | .ok b =>
      match UnifiedInferenceService.provider_status_loop reg rest with
      | .error e => .error e
      | .ok status => .ok ((name, b) :: status)

/-- `UnifiedInferenceService.get_provider_status` (`service.py` lines
349-358). -/
def UnifiedInferenceService.get_provider_status (reg : ProviderRegistry) :
    Except PyErr (List (String × Bool)) :=
  UnifiedInferenceService.provider_status_loop reg
    reg.get_available_providers

/-! ## `providers/google.py`: response normalization (post-2xx JSON handling) -/

/-- A JSON value as returned by the Google REST endpoint. -/
inductive JVal where
  | jNull : JVal
  | jStr (s : String) : JVal
  | jInt (n : Int) : JVal
  | jBool (b : Bool) : JVal
  | jArr (xs : List JVal) : JVal
  | jObj (fields : List (String × JVal)) : JVal

/-- `v[k]` on a JSON object: `KeyError` when the key is absent (the embedded
code only subscripts objects). -/
def jGetKey (v : JVal) (k : String) : Except PyErr JVal :=
  match v with
  | .jObj fields =>
    match alookup fields k with
    | some x => .ok x
    | none => .error (.keyError k)
  | _ => .error (.keyError k)

/-- `v[i]` on a JSON array: `IndexError` when out of range. -/
def jIndex (v : JVal) (i : Nat) : Except PyErr JVal :=
  match v with
  | .jArr xs =>
    match xs.get? i with
    | some x => .ok x
    | none => .error .indexError
  | _ => .error .indexError

/-- `k in v` on a JSON object. -/
def jHasKey (v : JVal) (k : String) : Bool :=
  match v with
  | .jObj fields => (alookup fields k).isSome
  | _ => false

/-- `v.get(k, default)` on a JSON object. -/
def jGetDef (v : JVal) (k : String) (dflt : JVal) : JVal :=
  match v with
  | .jObj fields => (alookup fields k).getD dflt
  | _ => dflt

/-- `v.get(k, d)` for the integer token counters of `usageMetadata`. -/
def jGetInt (v : JVal) (k : String) (dflt : Int) : Int :=
  match jGetDef v k (.jInt dflt) with
  | .jInt n => n
  | _ => dflt

/-- String reading of a JSON value (the embedded handlers only ever reach
this on strings). -/
def JVal.asStr : JVal → String
  | .jStr s => s
  | .jNull => "None"
  | .jInt n => toString n
  | .jBool b => if b then "True" else "False"
  | .jArr _ => ""
  | .jObj _ => ""

/-- The inner `try` body of `GoogleProvider._handle_text_request`
(`providers/google.py` lines 214-230): extract the candidate text, falling
back to labeled placeholders when the candidate has no parts and was
truncated (`MAX_TOKENS`) or filtered (`SAFETY`/`RECITATION`). -/
def google_text_extract_body (data : JVal) : Except PyErr String :=
  jGetKey data "candidates" >>= fun cands =>
  jIndex cands 0 >>= fun candidate =>
  if jHasKey candidate "content"
      && (match jGetKey candidate "content" with
          | .ok c => jHasKey c "parts"
          | .error _ => false) then
    jGetKey candidate "content" >>= fun c =>
    jGetKey c "parts" >>= fun parts =>
    jIndex parts 0 >>= fun p0 =>
    jGetKey p0 "text" >>= fun t => .ok t.asStr
  else if jHasKey candidate "content"
      && (match jGetKey candidate "content" with
          | .ok c => jHasKey c "text"
          | .error _ => false) then
    jGetKey candidate "content" >>= fun c =>
    jGetKey c "text" >>= fun t => .ok t.asStr
  else
    match jGetDef candidate "finishReason" (.jStr "UNKNOWN") with
    | .jStr s =>
      if s = "MAX_TOKENS" then
        .ok "[Response truncated due to max tokens limit]"
      else if s = "SAFETY" ∨ s = "RECITATION" then
        .ok ("[Response blocked due to " ++ s ++ " filters]")
      else
        .error (.valueError ("No content in Google API response. Finish reason: " ++ s))
    | fr =>
      .error (.valueError ("No content in Google API response. Finish reason: " ++ fr.asStr))

/-- The `except (KeyError, IndexError)` clause around the extraction
(`providers/google.py` lines 231-234): those two exception types are
re-raised as `ValueError`; the `ValueError` of the no-content branch passes
through unchanged. -/
def google_extract_text_content (data : JVal) : Except PyErr String :=
  match google_text_extract_body data with
  | .error (.keyError _) =>
    .error (.valueError "Invalid response structure from Google API")
  | .error .indexError =>
    .error (.valueError "Invalid response structure from Google API")
  | .error e => .error e
  | .ok s => .ok s

/-- `GoogleProvider._handle_text_request` after a 2xx response
(`providers/google.py` lines 212-252): the normalized `UnifiedResponse`.
The `safety_ratings` metadata entry (a raw JSON list) is outside the
embedded value domain and is left out of `metadata`. -/
def GoogleProvider.handle_text_response (data : JVal) (model_name : String) :
    Except PyErr UnifiedResponse :=
  match google_extract_text_content data with
  | .error e => .error e
  | .ok content =>
    let usage_metadata := jGetDef data "usageMetadata" (.jObj [])
    match jGetKey data "candidates" >>= fun c => jIndex c 0 with
    | .error e => .error e
    | .ok candidate0 =>
      .ok { content := some content,
            model_used := model_name,
            provider := "google",
            usage := { prompt_tokens := jGetInt usage_metadata "promptTokenCount" 0,
                       completion_tokens := jGetInt usage_metadata "candidatesTokenCount" 0,
                       total_tokens := jGetInt usage_metadata "totalTokenCount" 0 },
            finish_reason := (jGetDef candidate0 "finishReason" (.jStr "STOP")).asStr }

/-- The string `.value` of an `AttachmentType` member (a `str` enum). -/
def AttachmentType.value : AttachmentType → String
  | .IMAGE => "image"
  | .TEXT => "text"
  | .PDF => "pdf"
  | AttachmentType.AUDIO => "audio"
  | .VIDEO => "video"
  | .DOCUMENT => "document"
  | .UNKNOWN => "unknown"

/-- `GoogleProvider._handle_vision_request` after a 2xx response
(`providers/google.py` lines 295-320): the content extraction
`data['candidates'][0]['content']['parts'][0]['text']` has no guard; a
`KeyError`/`IndexError` there is logged and re-raised by the handler's
`except Exception` clause. -/
def GoogleProvider.handle_vision_response (data : JVal) (model_name : String)
    (request : UnifiedRequest) : Except PyErr UnifiedResponse :=
  match jGetKey data "candidates" >>= fun cs =>
      jIndex cs 0 >>= fun cand =>
      jGetKey cand "content" >>= fun ct =>
      jGetKey ct "parts" >>= fun parts =>
      jIndex parts 0 >>= fun p0 =>
      jGetKey p0 "text" with
  | .error e => .error e
  | .ok contentVal =>
    let usage_metadata := jGetDef data "usageMetadata" (.jObj [])
    match jGetKey data "candidates" >>= fun c => jIndex c 0 with
    | .error e => .error e
    | .ok candidate0 =>
      .ok { content := some contentVal.asStr,
            model_used := model_name,
            provider := "google",
            usage := { prompt_tokens := jGetInt usage_metadata "promptTokenCount" 0,
                       completion_tokens := jGetInt usage_metadata "candidatesTokenCount" 0,
                       total_tokens := jGetInt usage_metadata "totalTokenCount" 0 },
            finish_reason := (jGetDef candidate0 "finishReason" (.jStr "STOP")).asStr,
            attachments_processed := request.attachments.map (fun att =>
              [("type", PVal.vStr att.attachment_type.value),
               ("filename", match att.filename with
                 | some f => PVal.vStr f
                 | none => PVal.vNone)]) }

/-! ## Concrete model configurations

From `OpenAIProvider.get_supported_models` and
`GoogleProvider.get_supported_models` (the pure-REST provider modules).
The `supports_multimodal=True` keyword passed in the source is not a
declared `ModelCapabilities` field and is silently ignored by pydantic
(`extra="ignore"`), so it does not appear here.  Note that this gpt-5 entry
(unlike the parallel static table in `registry.py`) does not set
`reasoning=True`. -/

def OpenAIProvider.gpt_4o : ModelConfig :=
  { name := "gpt-4o", display_name := "GPT-4o", provider := "openai",
    capabilities :=
      { text_generation := true, vision := true, function_calling := true,
        streaming := true, json_mode := true,
        max_context_length := some 128000 },
    parameter_mapping :=
      { max_tokens_param := "max_tokens",
        temperature_param := some "temperature",
        top_p_param := some "top_p" },
    supported_parameters := ["max_tokens", "temperature", "top_p",
      "frequency_penalty", "presence_penalty", "stop", "stream"],
    cost_per_1k_tokens := some (0.005 : Rat), context_window := some 128000 }

def OpenAIProvider.gpt_5 : ModelConfig :=
  { name := "gpt-5", display_name := "GPT-5", provider := "openai",
    capabilities :=
      { text_generation := true, vision := true, function_calling := true,
        streaming := true, json_mode := true,
        max_context_length := some 200000 },
    parameter_mapping :=
      { max_tokens_param := "max_completion_tokens",
        temperature_param := none, top_p_param := none,
        custom_params := [("reasoning_effort", .vStr "medium")] },
    supported_parameters := ["max_completion_tokens", "reasoning_effort",
      "stream"],
    cost_per_1k_tokens := some (0.01 : Rat), context_window := some 200000 }

def GoogleProvider.gemini_15_pro : ModelConfig :=
  { name := "gemini-1.5-pro", display_name := "Gemini 1.5 Pro",
    provider := "google",
    capabilities :=
      { text_generation := true, vision := true, function_calling := true,
        streaming := true, max_context_length := some 2000000 },
    parameter_mapping :=
      { max_tokens_param := "max_output_tokens",
        temperature_param := some "temperature",
        top_p_param := some "top_p" },
    supported_parameters := ["max_output_tokens", "temperature", "top_p",
      "stop_sequences"],
    cost_per_1k_tokens := some (0.0035 : Rat),
    context_window := some 2000000 }

/-! ## Concrete fixtures used by the closed theorems below -/

/-- An OpenAI provider entry as it would sit in an `InferenceConfig`. -/
def openaiProviderConfig : ProviderConfig :=
  { api_key := "sk-test", default_model := "gpt-4o",
    models := [("gpt-4o", OpenAIProvider.gpt_4o),
               ("gpt-5", OpenAIProvider.gpt_5)] }

/-- A Google provider entry with a text-generation-capable model. -/
def googleProviderConfig : ProviderConfig :=
  { api_key := "g-test", default_model := "gemini-1.5-pro",
    models := [("gemini-1.5-pro", GoogleProvider.gemini_15_pro)] }

/-- A config with one provider holding text-capable models (C2 fixture). -/
def cfgOpenAIOnly : InferenceConfig :=
  { providers := [("openai", openaiProviderConfig)],
    default_provider := "auto", fallback_providers := [] }

/-- A config with both providers and google as fallback (C3/C8 fixture). -/
def cfgWithFallback : InferenceConfig :=
  { providers := [("openai", openaiProviderConfig),
                  ("google", googleProviderConfig)],
    default_provider := "auto", fallback_providers := ["google"] }

/-- An OpenAI stub whose network dispatch fails with an HTTP-style error. -/
def openaiFailingStub : ProviderStub :=
  { provider_name := "openai",
    supported_models := [("gpt-4o", OpenAIProvider.gpt_4o),
                         ("gpt-5", OpenAIProvider.gpt_5)],
    result := fun _ _ => .error (.valueError "openai HTTP 500") }

/-- A Google stub whose network dispatch would succeed. -/
def googleOkStub : ProviderStub :=
  { provider_name := "google",
    supported_models := [("gemini-1.5-pro", GoogleProvider.gemini_15_pro)],
    result := fun model_name _ =>
      .ok { content := some "fallback ok", model_used := model_name,
            provider := "google", usage := {}, finish_reason := "STOP" } }

/-- `ProviderRegistry.get_provider` abstracted over the two stubs above. -/
def stubGetProvider : String → Option ProviderStub :=
  fun name =>
    if name = "openai" then some openaiFailingStub
    else if name = "google" then some googleOkStub
    else none

/-- A valid single-turn text request pinned to `openai/gpt-4o`. -/
def reqGpt4oText : UnifiedRequest :=
  { prompt := some "Hello", model := "openai/gpt-4o" }

/-- A valid request with `model="auto"`, no attachments, text format. -/
def reqAutoText : UnifiedRequest :=
  { prompt := some "Hello", model := "auto" }

/-- A request pinned to `openai/gpt-4o` asking for an image response:
classified IMAGE_GENERATION, which gpt-4o's capabilities reject. -/
def reqGpt4oImage : UnifiedRequest :=
  { prompt := some "draw a cat", model := "openai/gpt-4o",
    response_format := "image" }

/-- An image attachment fixture. -/
def pngAttachment : Attachment :=
  { content := [137, 80, 78, 71], mime_type := "image/png",
    attachment_type := .IMAGE }

/-- A vision request fixture (image attachment, text response). -/
def reqVision : UnifiedRequest :=
  { prompt := some "what is in this picture", attachments := [pngAttachment],
    model := "google/gemini-1.5-pro" }

/-- A successful inner inference result, as `process_registry_request`
would hand it back to the HTTP handler (C1 fixture). -/
def okRegistryResponse : UnifiedResponse :=
  { content := some "Hi", model_used := "gpt-4o", provider := "openai",
    usage := { prompt_tokens := 9, completion_tokens := 1,
               total_tokens := 10 },
    finish_reason := "stop" }

/-- A 2xx Google body whose only candidate was emptied by safety filtering
(no `content` key, `finishReason: SAFETY`). -/
def safetyFilteredData : JVal :=
  .jObj [("candidates", .jArr [.jObj [("finishReason", .jStr "SAFETY")]])]

/-- A 2xx Google body whose only candidate was truncated at the token limit
(no `content` key, `finishReason: MAX_TOKENS`). -/
def maxTokensData : JVal :=
  .jObj [("candidates", .jArr [.jObj [("finishReason", .jStr "MAX_TOKENS")]])]

/-- A registry on which both provider classes have been registered
(C10 fixture). -/
def openaiProviderClass : ProviderClass :=
  { provider_name := "openai",
    supported_models := [("gpt-4o", OpenAIProvider.gpt_4o)] }

def googleProviderClass : ProviderClass :=
  { provider_name := "google",
    supported_models := [("gemini-1.5-pro", GoogleProvider.gemini_15_pro)] }

def regBothProviders : ProviderRegistry :=
  { _providers := [("openai", openaiProviderClass),
                   ("google", googleProviderClass)],
    _instances := [] }

/-! # Theorems -/

theorem pget_pinsert (d : PDict) (k key : String) (v : PVal) :
    pget (pinsert d key v) k = if k = key then some v else pget d k := by
  induction d with
  | nil =>
    simp only [pinsert, pget]
    by_cases h : key = k
    · simp [h]
    · rw [if_neg h, if_neg (fun hkk => h hkk.symm)]
  | cons hd tl ih =>
    obtain ⟨k', w⟩ := hd
    simp only [pinsert]
    by_cases h1 : k' = key
    · subst h1
      simp only [if_pos rfl, pget]
      by_cases h2 : k' = k
      · rw [if_pos h2, if_pos h2.symm]
      · rw [if_neg h2, if_neg (fun hkk => h2 hkk.symm), if_neg h2]
    · simp only [if_neg h1, pget, ih]
      by_cases h2 : k' = k
      · have hk : ¬ k = key := fun hk => h1 (h2.trans hk)
        rw [if_pos h2, if_neg hk, if_pos h2]
      · rw [if_neg h2, if_neg h2]

theorem beq_doc_triple (t : AttachmentType) :
    (t == AttachmentType.PDF || t == AttachmentType.TEXT
      || t == AttachmentType.DOCUMENT)
    = decide (t = AttachmentType.PDF ∨ t = AttachmentType.TEXT
        ∨ t = AttachmentType.DOCUMENT) := by
  cases t <;> rfl

theorem analyze_request_eq_spec (request : UnifiedRequest) :
    UnifiedInferenceService.analyze_request request
      = specRequestType request.attachments request.response_format := by
  unfold UnifiedInferenceService.analyze_request specRequestType
  by_cases h1 : request.response_format = "image" <;>
    by_cases h2 : ∃ x ∈ request.attachments,
        x.attachment_type = AttachmentType.IMAGE <;>
      simp [h1, h2, List.any_eq_true, beq_doc_triple]

/-- **C4**: request-type classification is a pure, total function of
`(attachments, response_format)` into the five request types, and both the
provider-level `determine_request_type` and the service-level
`_analyze_request` agree with the five ordered rules as the spec states
them (`specRequestType`). -/
theorem c4_request_type_classification (request : UnifiedRequest)
    (model_config : ModelConfig) :
    Provider.determine_request_type request model_config
      = specRequestType request.attachments request.response_format
    ∧ UnifiedInferenceService.analyze_request request
      = specRequestType request.attachments request.response_format := by
  have hsame : Provider.determine_request_type request model_config
      = UnifiedInferenceService.analyze_request request := rfl
  exact ⟨hsame.trans (analyze_request_eq_spec request),
    analyze_request_eq_spec request⟩

/-- **C5**: a `UnifiedRequest` constructs successfully exactly when one of
`prompt` (non-None) or a non-empty `messages` list is set and not the
other; both-set and neither-set constructions raise a validation error. -/
theorem c5_prompt_messages_exclusivity (r : UnifiedRequest) :
    (∃ r', r.validate_prompt_or_messages = .ok r')
      ↔ ((r.prompt.isSome ∧ ¬ ∃ ms, r.messages = some ms ∧ ms ≠ [])
         ∨ (r.prompt = none ∧ ∃ ms, r.messages = some ms ∧ ms ≠ [])) := by
  unfold UnifiedRequest.validate_prompt_or_messages
  rcases hp : r.prompt with _ | p <;>
    rcases hm : r.messages with _ | ms
  · simp [hp, hm]
  · cases ms <;> simp [hp, hm]
  · simp [hp, hm]
  · cases ms <;> simp [hp, hm]

/-- **C8**: capability validation rejects exactly on the three listed
conditions, and in the service path a rejected request yields an error with
no provider `process_request` (network) call dispatched — even when
fallback providers are configured. -/
theorem c8_capability_validation :
    (∀ (request : UnifiedRequest) (model_config : ModelConfig),
      Provider.validate_request request model_config = false
        ↔ (let rt := Provider.determine_request_type request model_config
           (rt = .VISION_ANALYSIS ∧ model_config.capabilities.vision = false)
           ∨ (rt = .IMAGE_GENERATION
              ∧ model_config.capabilities.image_generation = false)
           ∨ (rt = .IMAGE_EDIT
              ∧ (model_config.capabilities.image_generation = false
                 ∨ model_config.capabilities.image_editing = false))))
    ∧ (∀ (config : InferenceConfig)
        (get_provider : String → Option ProviderStub)
        (request : UnifiedRequest) (model_config : ModelConfig),
      UnifiedInferenceService.select_model config get_provider request
          (UnifiedInferenceService.analyze_request request) = .ok model_config →
      Provider.validate_request request model_config = false →
      (UnifiedInferenceService.process_request config get_provider request).2 = []
        ∧ ∃ e, (UnifiedInferenceService.process_request config get_provider
            request).1 = .error e) := by
  constructor
  · intro request model_config
    unfold Provider.validate_request
    cases hrt : Provider.determine_request_type request model_config <;>
      cases hv : model_config.capabilities.vision <;>
        cases hig : model_config.capabilities.image_generation <;>
          cases hie : model_config.capabilities.image_editing <;>
            simp [hrt, hv, hig, hie]
  · intro config get_provider request model_config hsel hval
    unfold UnifiedInferenceService.process_request
    simp only [hsel]
    cases hgp : get_provider model_config.provider with
    | none => simp [hgp]
    | some provider => simp [hgp, hval]

/-- Witness for `c8_capability_validation`: pinning `openai/gpt-4o` and
asking for an image response classifies as IMAGE_GENERATION, which gpt-4o
rejects; the service errors with an empty dispatch trace even though a
fallback provider is configured. -/
theorem c8_capability_validation_witness :
    (UnifiedInferenceService.process_request cfgWithFallback stubGetProvider
      reqGpt4oImage).2 = []
    ∧ ∃ e, (UnifiedInferenceService.process_request cfgWithFallback
        stubGetProvider reqGpt4oImage).1 = .error e :=
  c8_capability_validation.2 cfgWithFallback stubGetProvider reqGpt4oImage
    OpenAIProvider.gpt_4o (by rfl) (by rfl)

/-- **C6** (the code evaluated at the failing input): a supplied
`max_tokens` of `0` is dropped by both adapters because the source guards
the copy with Python truthiness (`unified_params.get("max_tokens") and
...`), while a non-zero value is copied under the mapped field name
(`max_tokens` for gpt-4o, `max_completion_tokens` for gpt-5). -/
theorem c6_max_tokens_zero_dropped :
    pget (OpenAIProvider.map_parameters [("max_tokens", .vInt 0)]
      OpenAIProvider.gpt_4o) "max_tokens" = none
    ∧ pget (GoogleProvider.map_parameters [("max_tokens", .vInt 0)]
        GoogleProvider.gemini_15_pro) "max_output_tokens" = none
    ∧ pget (OpenAIProvider.map_parameters [("max_tokens", .vInt 200)]
        OpenAIProvider.gpt_4o) "max_tokens" = some (.vInt 200)
    ∧ pget (OpenAIProvider.map_parameters [("max_tokens", .vInt 200)]
        OpenAIProvider.gpt_5) "max_completion_tokens" = some (.vInt 200) :=
  ⟨rfl, rfl, rfl, rfl⟩

theorem pget_step {c : Prop} [Decidable c] (d : PDict) (key k : String)
    (v : PVal) (h : ¬ k = key) :
    pget (if c then pinsert d key v else d) k = pget d k := by
  split
  · rw [pget_pinsert, if_neg h]
  · rfl

theorem pget_step2 {c c2 : Prop} [Decidable c] [Decidable c2] (d : PDict)
    (key k : String) (v v2 : PVal) (h : ¬ k = key) :
    pget (if c then pinsert d key v
          else if c2 then pinsert d key v2 else d) k = pget d k := by
  split
  · rw [pget_pinsert, if_neg h]
  · split
    · rw [pget_pinsert, if_neg h]
    · rfl

theorem pget_step3 {r c c2 : Prop} [Decidable r] [Decidable c] [Decidable c2]
    (d : PDict) (key k : String) (v v2 : PVal) (h : ¬ k = key) :
    pget (if r then
            (if c then pinsert d key v
             else if c2 then pinsert d key v2 else d)
          else d) k = pget d k := by
  split
  · exact pget_step2 d key k v v2 h
  · rfl

/-- A `ModelConfig` with `temperature_param = None` whose max-tokens mapping
is itself named `temperature` — constructible, since `ParameterMapping`
places no constraint on the field names. -/
def pathologicalMapping : ModelConfig :=
  { name := "pathological", display_name := "pathological",
    provider := "none",
    capabilities := {},
    parameter_mapping :=
      { max_tokens_param := "temperature", temperature_param := none,
        top_p_param := none },
    supported_parameters := [] }

/-- **C7** counterexample: for this `temperature_param = None` model the
output of `map_parameters` does contain a `temperature` key (carrying the
supplied max-tokens value), contradicting the claim's universal
no-`temperature` guarantee. -/
theorem c7_counterexample :
    pathologicalMapping.parameter_mapping.temperature_param = none
    ∧ pget (OpenAIProvider.map_parameters [("max_tokens", .vInt 5)]
        pathologicalMapping) "temperature" = some (.vInt 5) :=
  ⟨rfl, rfl⟩

/-- **C7** (amended): `map_parameters` is deterministic (a pure function of
its two arguments), and for every model whose `temperature_param` mapping
is `None` — provided neither `max_tokens_param` nor `top_p_param` is itself
the name `temperature` — the output dict never contains a `temperature`
key, for every input parameter dict, on both adapters. -/
theorem c7_map_parameters_deterministic :
    (∀ (p : PDict) (mc : ModelConfig),
      OpenAIProvider.map_parameters p mc = OpenAIProvider.map_parameters p mc
      ∧ GoogleProvider.map_parameters p mc
        = GoogleProvider.map_parameters p mc)
    ∧ (∀ (p : PDict) (mc : ModelConfig),
      mc.parameter_mapping.temperature_param = none →
      mc.parameter_mapping.max_tokens_param ≠ "temperature" →
      mc.parameter_mapping.top_p_param ≠ some "temperature" →
      pget (OpenAIProvider.map_parameters p mc) "temperature" = none
      ∧ pget (GoogleProvider.map_parameters p mc) "temperature" = none) := by
  constructor
  · exact fun p mc => ⟨rfl, rfl⟩
  · intro p mc h1 h2 h3
    have hmt : ¬ ("temperature" = mc.parameter_mapping.max_tokens_param) :=
      fun h => h2 h.symm
    cases htp : mc.parameter_mapping.top_p_param with
    | none =>
      constructor
      · unfold OpenAIProvider.map_parameters
        simp only [h1, htp, optStrTruthy, Bool.and_false, if_false]
        simp [pget_step, pget_step3, hmt, pget]
      · unfold GoogleProvider.map_parameters
        simp only [h1, htp, optStrTruthy, Bool.and_false, if_false]
        simp [pget_step, hmt, pget]
    | some s =>
      have hs : ¬ ("temperature" = s) := by
        intro hss
        exact h3 (by rw [htp, ← hss])
      constructor
      · unfold OpenAIProvider.map_parameters
        simp only [h1, htp, optStrTruthy, Bool.and_false, if_false,
          Option.getD_some]
        simp [pget_step, pget_step3, hmt, hs, pget]
      · unfold GoogleProvider.map_parameters
        simp only [h1, htp, optStrTruthy, Bool.and_false, if_false,
          Option.getD_some]
        simp [pget_step, hmt, hs, pget]

/-- Witness for `c7_map_parameters_deterministic`: gpt-5 has
`temperature_param = None`, and a request supplying both `max_tokens` and
`temperature` still yields no `temperature` key. -/
theorem c7_map_parameters_deterministic_witness :
    pget (OpenAIProvider.map_parameters
      [("max_tokens", .vInt 200), ("temperature", .vInt 1)]
      OpenAIProvider.gpt_5) "temperature" = none
    ∧ pget (GoogleProvider.map_parameters
        [("max_tokens", .vInt 200), ("temperature", .vInt 1)]
        OpenAIProvider.gpt_5) "temperature" = none :=
  c7_map_parameters_deterministic.2
    [("max_tokens", .vInt 200), ("temperature", .vInt 1)]
    OpenAIProvider.gpt_5 (by rfl) (by decide) (by decide)

/-- **C2** (the code evaluated at the failing input): with a configured
provider holding text-generation-capable models, `_get_best_text_model` —
and already the constructor's `_initialize_providers`, and hence any
`model="auto"` text request — raises `AttributeError` on the undefined
`provider_config.enabled` instead of resolving the first text-capable
model in registration order. -/
theorem c2_auto_selection_attribute_error :
    UnifiedInferenceService.get_best_text_model cfgOpenAIOnly
      = .error (.attributeError "ProviderConfig" "enabled")
    ∧ UnifiedInferenceService.init_providers cfgOpenAIOnly
      = .error (.attributeError "ProviderConfig" "enabled")
    ∧ UnifiedInferenceService.process_request cfgOpenAIOnly stubGetProvider
        reqAutoText
      = (.error (.attributeError "ProviderConfig" "enabled"), []) :=
  ⟨rfl, rfl, rfl⟩

theorem select_model_for_provider_never_selects (config : InferenceConfig)
    (rt : RequestType) (name : String) :
    UnifiedInferenceService.select_model_for_provider config rt name = .ok none
    ∨ UnifiedInferenceService.select_model_for_provider config rt name
        = .error (.attributeError "ProviderConfig" "enabled") := by
  unfold UnifiedInferenceService.select_model_for_provider
  cases halo : alookup config.providers name with
  | none => left; rfl
  | some pc => right; rfl

theorem try_fallback_loop_original_error (config : InferenceConfig)
    (get_provider : String → Option ProviderStub) (request : UnifiedRequest)
    (rt : RequestType) (e : PyErr) (fbs : List String) :
    UnifiedInferenceService.try_fallback_loop config get_provider request rt
      e fbs = (.error e, []) := by
  induction fbs with
  | nil => rfl
  | cons name rest ih =>
    unfold UnifiedInferenceService.try_fallback_loop
    rcases select_model_for_provider_never_selects config rt name with h | h <;>
      simp only [h] <;> exact ih

/-- **C3** (the code evaluated at the failing input, plus the general law):
the fallback traversal never dispatches to any fallback provider — each
iteration's model re-resolution either finds no provider entry or raises
`AttributeError` on the undefined `enabled` field, the per-iteration
`except` swallows it, and the original error is re-raised.  Concretely,
with `fallback_providers=["google"]`, a capability-compatible google model
configured, and a google stub ready to succeed, a failing openai dispatch
still surfaces the original openai error with only openai ever called; the
third conjunct shows the `AttributeError` each google iteration hits.
(Validation failures at step 4 are raised outside the `try` block and never
reach the fallback path at all — see `c8_capability_validation`.) -/
theorem c3_fallback_never_retries :
    (∀ (config : InferenceConfig)
        (get_provider : String → Option ProviderStub)
        (request : UnifiedRequest) (rt : RequestType) (e : PyErr),
      UnifiedInferenceService.try_fallback_providers config get_provider
        request rt e = (.error e, []))
    ∧ UnifiedInferenceService.process_request cfgWithFallback stubGetProvider
        reqGpt4oText
      = (.error (.valueError "openai HTTP 500"), ["openai"])
    ∧ UnifiedInferenceService.select_model_for_provider cfgWithFallback
        .TEXT_GENERATION "google"
      = .error (.attributeError "ProviderConfig" "enabled")
    ∧ UnifiedInferenceService.model_supports_request_type
        GoogleProvider.gemini_15_pro .TEXT_GENERATION = true := by
  refine ⟨?_, ?_, rfl, rfl⟩
  · intro config get_provider request rt e
    unfold UnifiedInferenceService.try_fallback_providers
    exact try_fallback_loop_original_error config get_provider request rt e
      config.fallback_providers
  · unfold UnifiedInferenceService.process_request
    rfl

/-- **C1** (the code evaluated at the failing input): even when the inner
`process_registry_request` hands back a successful `UnifiedResponse`, the
handler's success branch dies reading `response.token_usage` (the field is
named `usage`), the generic `except` catches the `AttributeError`, and the
endpoint returns `success=False` with the stringified error — for every
successful inner response, so the success path is never taken. -/
theorem c1_chat_success_path_unreachable :
    chat_completion true "openai/gpt-4o" (.ok okRegistryResponse)
      = { content := "", model_used := "openai/gpt-4o", provider := "openai",
          success := false,
          error := some "UnifiedResponse object has no attribute token_usage",
          metadata := none }
    ∧ ∀ (request_model : String) (response : UnifiedResponse),
        (chat_completion true request_model (.ok response)).success
          = false := by
  refine ⟨rfl, ?_⟩
  intro request_model response
  rfl

/-- **C9** counterexample: on a 2xx body whose single candidate was emptied
by safety filtering, the VISION handler raises (a `KeyError` on `content`,
re-raised by its `except Exception` clause) instead of returning a
clearly labeled placeholder response as the claim asserts for "text and
vision alike". -/
theorem c9_counterexample :
    GoogleProvider.handle_vision_response safetyFilteredData "gemini-1.5-pro"
      reqVision = .error (.keyError "content") := rfl

/-- **C9** (amended): for every 2xx Google body whose first candidate has
no `content` entry, the TEXT handler returns a placeholder-labeled
`UnifiedResponse` — `MAX_TOKENS` and `SAFETY`/`RECITATION` each get their
label — while the VISION handler raises a `KeyError` on the same body. -/
theorem c9_text_placeholder_vision_raises
    (c : List (String × JVal)) (rest : List JVal) (mn : String)
    (hc : alookup c "content" = none) :
    (alookup c "finishReason" = some (.jStr "MAX_TOKENS") →
      GoogleProvider.handle_text_response
          (.jObj [("candidates", .jArr (.jObj c :: rest))]) mn
        = .ok { content := some "[Response truncated due to max tokens limit]",
                model_used := mn, provider := "google", usage := {},
                finish_reason := "MAX_TOKENS" })
    ∧ (∀ s, (s = "SAFETY" ∨ s = "RECITATION") →
        alookup c "finishReason" = some (.jStr s) →
        GoogleProvider.handle_text_response
            (.jObj [("candidates", .jArr (.jObj c :: rest))]) mn
          = .ok { content :=
                    some ("[Response blocked due to " ++ s ++ " filters]"),
                  model_used := mn, provider := "google", usage := {},
                  finish_reason := s })
    ∧ (∀ request : UnifiedRequest,
        GoogleProvider.handle_vision_response
            (.jObj [("candidates", .jArr (.jObj c :: rest))]) mn request
          = .error (.keyError "content")) := by
  refine ⟨?_, ?_, ?_⟩
  · intro hf
    simp [GoogleProvider.handle_text_response, google_extract_text_content,
      google_text_extract_body, jGetKey, jIndex, jHasKey, jGetDef, jGetInt,
      JVal.asStr, alookup, bind, Except.bind, hc, hf]
  · intro s hs hf
    rcases hs with h | h <;> subst h <;>
      simp [GoogleProvider.handle_text_response, google_extract_text_content,
        google_text_extract_body, jGetKey, jIndex, jHasKey, jGetDef, jGetInt,
        JVal.asStr, alookup, bind, Except.bind, hc, hf]
  · intro request
    simp [GoogleProvider.handle_vision_response, jGetKey, jIndex, jHasKey,
      jGetDef, alookup, bind, Except.bind, hc]

/-- Witness for `c9_text_placeholder_vision_raises` at concrete truncated
and safety-filtered bodies. -/
theorem c9_text_placeholder_vision_raises_witness :
    GoogleProvider.handle_text_response maxTokensData "gemini-1.5-pro"
      = .ok { content := some "[Response truncated due to max tokens limit]",
              model_used := "gemini-1.5-pro", provider := "google",
              usage := {}, finish_reason := "MAX_TOKENS" }
    ∧ GoogleProvider.handle_text_response safetyFilteredData "gemini-1.5-pro"
      = .ok { content := some "[Response blocked due to SAFETY filters]",
              model_used := "gemini-1.5-pro", provider := "google",
              usage := {}, finish_reason := "SAFETY" }
    ∧ GoogleProvider.handle_vision_response maxTokensData "gemini-1.5-pro"
        reqVision = .error (.keyError "content") :=
  ⟨(c9_text_placeholder_vision_raises
      [("finishReason", .jStr "MAX_TOKENS")] [] "gemini-1.5-pro" rfl).1 rfl,
   (c9_text_placeholder_vision_raises
      [("finishReason", .jStr "SAFETY")] [] "gemini-1.5-pro" rfl).2.1
      "SAFETY" (Or.inl rfl) rfl,
   (c9_text_placeholder_vision_raises
      [("finishReason", .jStr "MAX_TOKENS")] [] "gemini-1.5-pro" rfl).2.2
      reqVision⟩

/-- **C10**: `ProviderRegistry.is_provider_available` raises
`AttributeError` (on the undefined `_shims`) for every registry state and
every name, and consequently the service's `get_provider_status` raises as
soon as at least one provider is registered. -/
theorem c10_provider_availability_raises :
    (∀ (reg : ProviderRegistry) (name : String),
      reg.is_provider_available name
        = .error (.attributeError "ProviderRegistry" "_shims"))
    ∧ (∀ reg : ProviderRegistry, reg._providers ≠ [] →
      UnifiedInferenceService.get_provider_status reg
        = .error (.attributeError "ProviderRegistry" "_shims")) := by
  constructor
  · intro reg name
    rfl
  · intro reg h
    unfold UnifiedInferenceService.get_provider_status
      ProviderRegistry.get_available_providers akeys
    cases hp : reg._providers with
    | nil => exact absurd hp h
    | cons p rest =>
      simp only [hp, List.map_cons]
      unfold UnifiedInferenceService.provider_status_loop
      rfl

/-- Witness for `c10_provider_availability_raises` on a registry holding
the two registered provider classes. -/
theorem c10_provider_availability_raises_witness :
    regBothProviders._providers ≠ []
    ∧ UnifiedInferenceService.get_provider_status regBothProviders
      = .error (.attributeError "ProviderRegistry" "_shims") :=
  ⟨by simp [regBothProviders],
   c10_provider_availability_raises.2 regBothProviders
     (by simp [regBothProviders])⟩
